import Mathlib

/-!
Verification development for the Safebase location-alert core.

The definitions below are a shallow embedding of the TypeScript sources:
- `src/lib/locationUtils.ts` (`getDistance`, haversine over exact reals,
  with `Math.atan2` embedded as `atan2`),
- `src/config/locations.ts` (`PREDEFINED_LOCATIONS`, `DANGER_CHECK_RADIUS`),
- `src/services/geolocation.ts` (error-message mapping of `getCurrentLocation`),
- `src/hooks/useLocationAlerts.ts` (the first, current `useLocationAlerts`
  hook of that file: `checkProximityToDanger`, `updateAlertForLocation`,
  `manuallySetLocation`, `simulateGunshot`, the gunshot feed listener, the
  side-notification display timer, and the initial GPS effect).

React state is embedded as explicit state passing over `HookState`; each
external trigger (manual selection, GPS fetch completion, store-write
completion, feed snapshot delivery, timer expiry) is one atomic step, per
the serialized event-driven model of the spec.  JavaScript closures that
capture stale values observably (the display timer callback capturing
`currentLocation` and the `alertState.type` baked into its
`updateAlertForLocation` closure) are embedded explicitly as the
`TimerClosure` record; closure captures that coincide with current state in
every reachable execution are read from current state.
-/

namespace Safebase

open Real

/-- `Location` from `src/types/index.ts`: latitude/longitude in degrees. -/
structure Location where
  lat : ℝ
  lng : ℝ

/-- `DefinedLocation` from `src/config/locations.ts`. -/
structure DefinedLocation where
  name : String
  lat : ℝ
  lng : ℝ
  isDangerous : Bool

/-- Coordinate view of a catalog entry. -/
def DefinedLocation.toLocation (d : DefinedLocation) : Location :=
  ⟨d.lat, d.lng⟩

/-- JavaScript `Math.atan2 y x` over exact reals. -/
noncomputable def atan2 (y x : ℝ) : ℝ :=
  if 0 < x then arctan (y / x)
  else if x < 0 then
    if 0 ≤ y then arctan (y / x) + π else arctan (y / x) - π
  else if 0 < y then π / 2
  else if y < 0 then -(π / 2)
  else 0

/-- The haversine intermediate `a` of `getDistance` in
`src/lib/locationUtils.ts` (the source's local `const a`). -/
noncomputable def haversineA (loc1 loc2 : Location) : ℝ :=
  sin ((loc2.lat - loc1.lat) * π / 180 / 2) * sin ((loc2.lat - loc1.lat) * π / 180 / 2) +
    cos (loc1.lat * π / 180) * cos (loc2.lat * π / 180) *
      (sin ((loc2.lng - loc1.lng) * π / 180 / 2) * sin ((loc2.lng - loc1.lng) * π / 180 / 2))

/-- `getDistance` from `src/lib/locationUtils.ts`: haversine great-circle
distance in meters, Earth radius 6,371,000 m, `c = 2 atan2 (sqrt a) (sqrt (1-a))`. -/
noncomputable def getDistance (loc1 loc2 : Location) : ℝ :=
  6371e3 * (2 * atan2 (Real.sqrt (haversineA loc1 loc2)) (Real.sqrt (1 - haversineA loc1 loc2)))

/-- Catalog entry "Safe Park" (not dangerous). -/
def safePark : DefinedLocation := ⟨"Safe Park", 34.0522, -118.2437, false⟩

/-- Catalog entry "Downtown Crossing" (dangerous). -/
def downtownCrossing : DefinedLocation := ⟨"Downtown Crossing", 34.0550, -118.2450, true⟩

/-- Catalog entry "Skid Row Adjacent" (dangerous). -/
def skidRowAdjacent : DefinedLocation := ⟨"Skid Row Adjacent", 34.0400, -118.2500, true⟩

/-- Catalog entry "Library Square" (not dangerous). -/
def librarySquare : DefinedLocation := ⟨"Library Square", 34.0500, -118.2550, false⟩

/-- `PREDEFINED_LOCATIONS` from `src/config/locations.ts`, in catalog order. -/
def PREDEFINED_LOCATIONS : List DefinedLocation :=
  [safePark, downtownCrossing, skidRowAdjacent, librarySquare]

/-- `DANGER_CHECK_RADIUS` from `src/config/locations.ts` (meters). -/
def DANGER_CHECK_RADIUS : ℝ := 500

/-- Result record of `checkProximityToDanger`: `{ isNear, name? }`. -/
structure ProximityResult where
  isNear : Bool
  name : Option String

/-- The `for` loop of `checkProximityToDanger`, over an explicit list. -/
noncomputable def checkProximityList (location : Location) :
    List DefinedLocation → ProximityResult
  | [] => ⟨false, none⟩
  | spot :: rest =>
    if getDistance location spot.toLocation ≤ DANGER_CHECK_RADIUS then ⟨true, some spot.name⟩
    else checkProximityList location rest

/-- `checkProximityToDanger` from `useLocationAlerts.ts`: iterate
`PREDEFINED_LOCATIONS.filter(l => l.isDangerous)`, first entry within
`DANGER_CHECK_RADIUS` wins. -/
noncomputable def checkProximityToDanger (location : Location) : ProximityResult :=
  checkProximityList location (PREDEFINED_LOCATIONS.filter fun l => l.isDangerous)

/-- `AlertType` from `src/types/index.ts` without the `null` case
(`Option AlertType` embeds `'crime' | 'gunshot' | null`). -/
inductive AlertType where
  | crime
  | gunshot
  deriving DecidableEq

/-- `AlertState` from `src/types/index.ts`. -/
structure AlertState where
  type : Option AlertType
  message : String
  deriving DecidableEq

/-- The hook's `currentLocation` value: `DefinedLocation | Location`. -/
inductive CurrentLoc where
  | defined (d : DefinedLocation)
  | plain (l : Location)

/-- Coordinates of a `currentLocation` value. -/
def CurrentLoc.toLocation : CurrentLoc → Location
  | .defined d => d.toLocation
  | .plain l => l

/-- The hook's `locationSource` value: `'gps' | 'manual'`. -/
inductive LocationSource where
  | gps
  | manual
  deriving DecidableEq

/-- `GunshotEvent` from `src/types/index.ts`; the Firestore server timestamp
is milliseconds since epoch, `none` while the write is pending. -/
structure GunshotEvent where
  location : Location
  timestamp : Option ℤ

/-- The values captured by the display-timer callback's JavaScript closure:
the `currentLocation` seen by `simulateGunshot`/the listener, and the
`alertState.type` baked into the `updateAlertForLocation` closure it calls. -/
structure TimerClosure where
  capturedLocation : Option CurrentLoc
  capturedAlertType : Option AlertType

/-- The complete state of one mounted `useLocationAlerts` hook, plus the
external event store (`gunshotEvents` collection).  `isGunshotAlertActive`
is the ref (the spec's SuppressionFlag); `sideNotificationTimer` is the
pending display timer with its closure; `gpsFetchLive` is the `isMounted`
flag of the in-flight initial GPS fetch (false once the effect cleanup ran
or the fetch settled). -/
structure HookState where
  currentLocation : Option CurrentLoc
  locationSource : Option LocationSource
  alertState : AlertState
  isLoadingLocation : Bool
  error : Option String
  showSideNotification : Bool
  isGunshotAlertActive : Bool
  sideNotificationTimer : Option TimerClosure
  gpsFetchLive : Bool
  store : List GunshotEvent

/-- Hook state right after mount: `useState` initial values, with the
initial GPS fetch started by the first effect run. -/
def initialState : HookState where
  currentLocation := none
  locationSource := none
  alertState := ⟨none, ""⟩
  isLoadingLocation := true
  error := none
  showSideNotification := false
  isGunshotAlertActive := false
  sideNotificationTimer := none
  gpsFetchLive := true
  store := []

/-- Message of the gunshot alert. -/
def gunshotMessage : String := "🔫 Gunshot detected nearby! Take cover!"

/-- Crime message for a manually selected named location. -/
def selectedHighRiskMessage (n : String) : String :=
  "🚨 Selected location \"" ++ n ++ "\" is a high-risk area. Stay alert!"

/-- Crime message when GPS position is near a named dangerous spot. -/
def nearHighRiskMessage (n : String) : String :=
  "🚨 Near high-risk area \"" ++ n ++ "\". Stay alert!"

/-- Default crime message. -/
def enteringHighRiskMessage : String := "🚨 Entering a high-risk area. Stay alert!"

/-- `clearSideNotification` from `useLocationAlerts.ts`: cancel the pending
timer and hide the side notification. -/
def clearSideNotification (s : HookState) : HookState :=
  { s with sideNotificationTimer := none, showSideNotification := false }

/-- The `dangerCheckResult` computation inside `updateAlertForLocation`: a
manually selected `DefinedLocation` is classified by its own `isDangerous`
flag; a plain GPS location goes through `checkProximityToDanger`. -/
noncomputable def dangerCheckFor : CurrentLoc → ProximityResult
  | .defined d => ⟨d.isDangerous, some d.name⟩
  | .plain l => checkProximityToDanger l

/-- The `locationName` local of `updateAlertForLocation`. -/
def locationNameOf : CurrentLoc → Option String
  | .defined d => some d.name
  | .plain _ => none

/-- `updateAlertForLocation` from `useLocationAlerts.ts`, with the
`alertState.type` its JavaScript closure captured passed explicitly as
`closureType` (the guard on the `isGunshotAlertActive` ref reads current
state).  Sets or clears the crime alert; never touches a gunshot alert. -/
noncomputable def updateAlertClosure (closureType : Option AlertType)
    (location : Option CurrentLoc) (s : HookState) : HookState :=
  if s.isGunshotAlertActive then s
  else
    let s1 := clearSideNotification s
    match location with
    | none =>
      if closureType = some AlertType.crime then { s1 with alertState := ⟨none, ""⟩ } else s1
    | some loc =>
      let dcr := dangerCheckFor loc
      if dcr.isNear then
        let message :=
          match locationNameOf loc with
          | some n => selectedHighRiskMessage n
          | none =>
            match dcr.name with
            | some hn => nearHighRiskMessage hn
            | none => enteringHighRiskMessage
        if closureType ≠ some AlertType.gunshot then
          { s1 with alertState := ⟨some AlertType.crime, message⟩ }
        else s1
      else
        if closureType = some AlertType.crime ∨ closureType = none then
          { s1 with alertState := ⟨none, ""⟩ }
        else s1

/-- `updateAlertForLocation` called from a fresh render closure: the
captured `alertState.type` is the current one. -/
noncomputable def updateAlertForLocation (location : Option CurrentLoc) (s : HookState) :
    HookState :=
  updateAlertClosure s.alertState.type location s

/-- The `useEffect` on `[currentLocation, updateAlertForLocation]`: skips
while the gunshot flag is set, otherwise re-evaluates the location alert. -/
noncomputable def locationChangeEffect (s : HookState) : HookState :=
  if s.isGunshotAlertActive then s else updateAlertForLocation s.currentLocation s

/-- `manuallySetLocation` from `useLocationAlerts.ts`: clear error/loading,
reset the gunshot flag, cancel the side notification, set the location and
`'manual'` source (which tears down any in-flight GPS fetch, since the GPS
effect's cleanup runs when `locationSource` changes), then the location
effect re-evaluates the alert. -/
noncomputable def manuallySetLocation (d : DefinedLocation) (s : HookState) : HookState :=
  let s1 := { s with error := none, isLoadingLocation := false, isGunshotAlertActive := false }
  let s2 := clearSideNotification s1
  let live := if s.locationSource = some LocationSource.manual then s2.gpsFetchLive else false
  let s3 := { s2 with currentLocation := some (CurrentLoc.defined d),
                      locationSource := some LocationSource.manual,
                      gpsFetchLive := live }
  locationChangeEffect s3

/-- The synchronous part of `simulateGunshot`, before the `addDoc` write
settles: guard on a missing location, else optimistically raise the gunshot
alert, set the flag, show the side notification and start the display
timer (capturing the invoking render's `currentLocation` and
`alertState.type` in its closure). -/
def simulateGunshotStart (s : HookState) : HookState :=
  match s.currentLocation with
  | none => { s with error := some "Cannot simulate gunshot without a location selected." }
  | some _ =>
    { s with error := none,
             isGunshotAlertActive := true,
             alertState := ⟨some AlertType.gunshot, gunshotMessage⟩,
             showSideNotification := true,
             sideNotificationTimer := some ⟨s.currentLocation, s.alertState.type⟩ }

/-- Settlement of the `addDoc` write started by `simulateGunshot`: on
success the event is appended to the store (server timestamp pending); on
failure the `catch` block surfaces the error, resets the gunshot flag and
cancels the side notification and its timer. -/
def gunshotWriteComplete (writeOk : Bool) (loc : Location) (s : HookState) : HookState :=
  if writeOk then { s with store := s.store ++ [⟨loc, none⟩] }
  else
    clearSideNotification
      { s with error := some "Failed to simulate gunshot event.", isGunshotAlertActive := false }

/-- `simulateGunshot` from `useLocationAlerts.ts` as one atomic reaction,
parameterized by whether the store write succeeds. -/
def simulateGunshot (writeOk : Bool) (s : HookState) : HookState :=
  match s.currentLocation with
  | none => simulateGunshotStart s
  | some loc => gunshotWriteComplete writeOk loc.toLocation (simulateGunshotStart s)

/-- Expiry of the display timer (`setTimeout` callback, 10,000 ms): hide the
side notification, drop the timer, reset the gunshot flag, then re-run the
`updateAlertForLocation` closure captured when the timer was created. -/
noncomputable def fireTimer (s : HookState) : HookState :=
  match s.sideNotificationTimer with
  | none => s
  | some tc =>
    let s1 := { s with showSideNotification := false,
                       sideNotificationTimer := none,
                       isGunshotAlertActive := false }
    updateAlertClosure tc.capturedAlertType tc.capturedLocation s1

/-- The listener's recency test `eventTimestamp && now - eventTimestamp < 60000`.
A pending timestamp yields `undefined`, and an epoch-zero timestamp yields
the number 0; both are falsy in JavaScript. -/
def isRecentB (now : ℤ) : Option ℤ → Bool
  | none => false
  | some t => if t = 0 then false else decide (now - t < 60000)

/-- The listener's `isNearby` computation: defaults to true when no current
location is resolved, else a strict 1,000 m check. -/
noncomputable def isNearbyB (curLoc : Option CurrentLoc) (evLoc : Location) : Bool :=
  match curLoc with
  | none => true
  | some l => decide (getDistance l.toLocation evLoc < 1000)

/-- The listener's classification of the latest feed event as active:
recent and nearby. -/
noncomputable def classifyEvent (now : ℤ) (curLoc : Option CurrentLoc)
    (ev : GunshotEvent) : Bool :=
  isRecentB now ev.timestamp && isNearbyB curLoc ev.location

/-- The listener's clear path: reset the gunshot flag, cancel the side
notification, then call the `updateAlertForLocation` closure of the
subscription render (whose captured `alertState.type` is the type at
delivery start). -/
noncomputable def clearGunshotAndRevert (s : HookState) : HookState :=
  let s1 := { s with isGunshotAlertActive := false }
  let s2 := clearSideNotification s1
  updateAlertClosure s.alertState.type s.currentLocation s2

/-- One delivery of the `onSnapshot` feed listener of `useLocationAlerts.ts`
(`limit(1)`, newest first): `snap` is the latest event or `none` for an
empty snapshot, `now` is `Date.now()` at delivery. -/
noncomputable def handleSnapshot (now : ℤ) (snap : Option GunshotEvent)
    (s : HookState) : HookState :=
  let currentType := s.alertState.type
  let isManualSimulationActive := s.isGunshotAlertActive
  match snap with
  | some ev =>
    if isRecentB now ev.timestamp then
      let nearby := isNearbyB s.currentLocation ev.location
      if nearby = true ∧ currentType ≠ some AlertType.gunshot ∧
          isManualSimulationActive = false then
        { s with isGunshotAlertActive := true,
                 alertState := ⟨some AlertType.gunshot, gunshotMessage⟩,
                 showSideNotification := true,
                 sideNotificationTimer := some ⟨s.currentLocation, currentType⟩ }
      else if nearby = false ∧ currentType = some AlertType.gunshot ∧
          isManualSimulationActive = false then
        clearGunshotAndRevert s
      else s
    else
      if currentType = some AlertType.gunshot ∧ isManualSimulationActive = false then
        clearGunshotAndRevert s
      else s
  | none =>
    if currentType = some AlertType.gunshot ∧ isManualSimulationActive = false then
      clearGunshotAndRevert s
    else s

/-- Successful completion of the initial GPS fetch (`.then` callback):
applied only while the owning effect is still mounted (`isMounted`), sets
the location with `'gps'` provenance and stops loading; the location effect
then re-evaluates the alert. -/
noncomputable def gpsSuccess (loc : Location) (s : HookState) : HookState :=
  if s.gpsFetchLive then
    let s1 := { s with currentLocation := some (CurrentLoc.plain loc),
                       locationSource := some LocationSource.gps,
                       isLoadingLocation := false,
                       gpsFetchLive := false }
    locationChangeEffect s1
  else s

/-- Failed completion of the initial GPS fetch (`.catch` callback): surface
`err.message` (or the fallback text), stop loading, clear a crime alert if
one is showing, and clear the side notification. -/
def gpsFailure (msg : String) (s : HookState) : HookState :=
  if s.gpsFetchLive then
    let m := if msg = "" then "Could not retrieve location via GPS." else msg
    let s1 := { s with error := some m, isLoadingLocation := false, gpsFetchLive := false }
    let s2 := if s1.alertState.type = some AlertType.crime then
        { s1 with alertState := ⟨none, ""⟩ }
      else s1
    clearSideNotification s2
  else s

/-- The geolocation error message for a permission-denied failure, from
`src/services/geolocation.ts`. -/
def permissionDeniedMessage : String := "User denied the request for Geolocation."

/-- One external trigger of the hook. -/
inductive Action where
  | manualSelect (d : DefinedLocation)
  | gpsFixArrives (loc : Location)
  | gpsFetchFails (msg : String)
  | localTrigger (writeOk : Bool)
  | feedDelivery (now : ℤ) (snap : Option GunshotEvent)
  | timerFire

/-- The reaction of the hook to one external trigger. -/
noncomputable def step : Action → HookState → HookState
  | .manualSelect d, s => manuallySetLocation d s
  | .gpsFixArrives loc, s => gpsSuccess loc s
  | .gpsFetchFails msg, s => gpsFailure msg s
  | .localTrigger writeOk, s => simulateGunshot writeOk s
  | .feedDelivery now snap, s => handleSnapshot now snap s
  | .timerFire, s => fireTimer s

/-- Reactions to a list of triggers, oldest first. -/
noncomputable def steps (as : List Action) (s : HookState) : HookState :=
  as.foldl (fun t a => step a t) s

/-! ## Distance Oracle lemmas -/

theorem haversineA_self (a : Location) : haversineA a a = 0 := by
  unfold haversineA
  simp [sub_self]

theorem haversineA_symm (a b : Location) : haversineA a b = haversineA b a := by
  unfold haversineA
  have h1 : (b.lat - a.lat) * π / 180 / 2 = -((a.lat - b.lat) * π / 180 / 2) := by ring
  have h2 : (b.lng - a.lng) * π / 180 / 2 = -((a.lng - b.lng) * π / 180 / 2) := by ring
  rw [h1, h2, Real.sin_neg, Real.sin_neg]
  ring

theorem getDistance_self (a : Location) : getDistance a a = 0 := by
  unfold getDistance
  rw [haversineA_self, Real.sqrt_zero]
  norm_num [atan2, Real.sqrt_one]

theorem getDistance_symm (a b : Location) : getDistance a b = getDistance b a := by
  unfold getDistance
  rw [haversineA_symm]

theorem arctan_le_self_of_nonneg {x : ℝ} (hx : 0 ≤ x) : arctan x ≤ x := by
  rcases eq_or_lt_of_le hx with h | h
  · rw [← h, Real.arctan_zero]
  · have h1 : 0 < arctan x := by
      have h2 := Real.arctan_strictMono h
      rwa [Real.arctan_zero] at h2
    have h2 := Real.lt_tan h1 (Real.arctan_lt_pi_div_two x)
    rw [Real.tan_arctan] at h2
    exact h2.le

theorem atan2_nonneg {y x : ℝ} (hy : 0 ≤ y) (hx : 0 ≤ x) : 0 ≤ atan2 y x := by
  unfold atan2
  split_ifs with h1 h2 h3 h4
  · have hq : 0 ≤ y / x := div_nonneg hy h1.le
    have hm := Real.arctan_strictMono.monotone hq
    rwa [Real.arctan_zero] at hm
  all_goals linarith [Real.pi_pos]

theorem getDistance_nonneg (a b : Location) : 0 ≤ getDistance a b := by
  unfold getDistance
  have h := atan2_nonneg (Real.sqrt_nonneg (haversineA a b))
    (Real.sqrt_nonneg (1 - haversineA a b))
  have h2 : (0:ℝ) ≤ 2 * atan2 (Real.sqrt (haversineA a b))
      (Real.sqrt (1 - haversineA a b)) := by linarith
  have h3 : (0:ℝ) ≤ 6371e3 := by norm_num
  exact mul_nonneg h3 h2

/-- C9: for every coordinate `a`, `distance(a,a) = 0`; for every pair,
`distance(a,b) = distance(b,a)` (exact over the real-number embedding of
the haversine formula); and the result is always non-negative. -/
theorem C9_distance_oracle (a b : Location) :
    getDistance a a = 0 ∧ getDistance a b = getDistance b a ∧ 0 ≤ getDistance a b :=
  ⟨getDistance_self a, getDistance_symm a b, getDistance_nonneg a b⟩

/-! ## Structural lemmas about the alert updater -/

theorem updateAlertClosure_fields (t : Option AlertType) (l : Option CurrentLoc)
    (s : HookState) :
    (updateAlertClosure t l s).currentLocation = s.currentLocation ∧
    (updateAlertClosure t l s).locationSource = s.locationSource ∧
    (updateAlertClosure t l s).isGunshotAlertActive = s.isGunshotAlertActive ∧
    (updateAlertClosure t l s).gpsFetchLive = s.gpsFetchLive ∧
    (updateAlertClosure t l s).error = s.error ∧
    (updateAlertClosure t l s).isLoadingLocation = s.isLoadingLocation ∧
    (updateAlertClosure t l s).store = s.store := by
  unfold updateAlertClosure clearSideNotification
  rcases l with _ | loc
  · split_ifs <;> simp
  · cases hn : (dangerCheckFor loc).isNear <;> simp only [hn] <;> split_ifs <;> simp

theorem updateAlertClosure_gunshot_fixed (l : Option CurrentLoc) (s : HookState) :
    (updateAlertClosure (some AlertType.gunshot) l s).alertState = s.alertState := by
  unfold updateAlertClosure clearSideNotification
  rcases l with _ | loc
  · split_ifs <;> simp_all
  · cases hn : (dangerCheckFor loc).isNear <;> simp only [hn] <;> split_ifs <;> simp_all

/-! ## Geometry of the shipped catalog -/

theorem haversineA_safePark_downtown_le :
    haversineA safePark.toLocation downtownCrossing.toLocation ≤ 7.3e-10 := by
  have hpiu : π < 3.15 := Real.pi_lt_d2
  have hpil : 0 < π := Real.pi_pos
  unfold haversineA DefinedLocation.toLocation safePark downtownCrossing
  dsimp only
  set u := ((34.0550:ℝ) - 34.0522) * π / 180 / 2 with hu
  set v := ((-118.2450:ℝ) - -118.2437) * π / 180 / 2 with hv
  have hu0 : 0 ≤ u := by rw [hu]; nlinarith
  have huB : u ≤ 2.45e-5 := by rw [hu]; nlinarith
  have hv1 : -(1.1375e-5) ≤ v := by rw [hv]; nlinarith
  have hv2 : v ≤ 1.1375e-5 := by rw [hv]; nlinarith
  have hsinu : sin u * sin u ≤ 6.0025e-10 := by
    have hb1 : sin u ^ 2 ≤ u ^ 2 := Real.sin_sq_le_sq
    have hb2 : u ^ 2 ≤ (2.45e-5:ℝ) ^ 2 := pow_le_pow_left₀ hu0 huB 2
    nlinarith
  have hsinv : sin v * sin v ≤ 1.2940e-10 := by
    have hb1 : sin v ^ 2 ≤ v ^ 2 := Real.sin_sq_le_sq
    have hb2 : v ^ 2 ≤ (1.1375e-5:ℝ) ^ 2 := sq_le_sq' hv1 hv2
    nlinarith
  have hcos : cos (34.0522 * π / 180) * cos (34.0550 * π / 180) * (sin v * sin v) ≤
      sin v * sin v := by
    have hs0 : 0 ≤ sin v * sin v := mul_self_nonneg _
    have hcc : cos (34.0522 * π / 180) * cos (34.0550 * π / 180) ≤ 1 := by
      calc cos (34.0522 * π / 180) * cos (34.0550 * π / 180) ≤
          |cos (34.0522 * π / 180) * cos (34.0550 * π / 180)| := le_abs_self _
        _ = |cos (34.0522 * π / 180)| * |cos (34.0550 * π / 180)| := abs_mul _ _
        _ ≤ 1 * 1 :=
          mul_le_mul (Real.abs_cos_le_one _) (Real.abs_cos_le_one _) (abs_nonneg _) zero_le_one
        _ = 1 := one_mul 1
    exact mul_le_of_le_one_left hs0 hcc
  linarith

theorem safePark_within_radius :
    getDistance safePark.toLocation downtownCrossing.toLocation ≤ DANGER_CHECK_RADIUS := by
  have hmain := haversineA_safePark_downtown_le
  have hA2 : haversineA safePark.toLocation downtownCrossing.toLocation ≤ (2.71e-5:ℝ) ^ 2 :=
    le_trans hmain (by norm_num)
  have hsqA :
      Real.sqrt (haversineA safePark.toLocation downtownCrossing.toLocation) ≤ 2.71e-5 := by
    calc Real.sqrt (haversineA safePark.toLocation downtownCrossing.toLocation) ≤
        Real.sqrt ((2.71e-5:ℝ) ^ 2) := Real.sqrt_le_sqrt hA2
      _ = 2.71e-5 := Real.sqrt_sq (by norm_num)
  have h1A : (0.9:ℝ) ≤
      Real.sqrt (1 - haversineA safePark.toLocation downtownCrossing.toLocation) := by
    rw [Real.le_sqrt (by norm_num) (by linarith)]
    nlinarith
  have hpos : (0:ℝ) <
      Real.sqrt (1 - haversineA safePark.toLocation downtownCrossing.toLocation) :=
    lt_of_lt_of_le (by norm_num) h1A
  have hq0 : 0 ≤ Real.sqrt (haversineA safePark.toLocation downtownCrossing.toLocation) /
      Real.sqrt (1 - haversineA safePark.toLocation downtownCrossing.toLocation) :=
    div_nonneg (Real.sqrt_nonneg _) (Real.sqrt_nonneg _)
  have hq : Real.sqrt (haversineA safePark.toLocation downtownCrossing.toLocation) /
      Real.sqrt (1 - haversineA safePark.toLocation downtownCrossing.toLocation) ≤
        2.71e-5 / 0.9 := by
    gcongr
  have harc : arctan (Real.sqrt (haversineA safePark.toLocation downtownCrossing.toLocation) /
      Real.sqrt (1 - haversineA safePark.toLocation downtownCrossing.toLocation)) ≤
        2.71e-5 / 0.9 :=
    le_trans (arctan_le_self_of_nonneg hq0) hq
  unfold getDistance DANGER_CHECK_RADIUS
  have hata : atan2 (Real.sqrt (haversineA safePark.toLocation downtownCrossing.toLocation))
      (Real.sqrt (1 - haversineA safePark.toLocation downtownCrossing.toLocation)) =
        arctan (Real.sqrt (haversineA safePark.toLocation downtownCrossing.toLocation) /
          Real.sqrt (1 - haversineA safePark.toLocation downtownCrossing.toLocation)) := by
    unfold atan2
    rw [if_pos hpos]
  rw [hata]
  linarith

/-! ## Manual selection (C1) -/

/-- C1 counterexample: "Safe Park" is a non-hazardous catalog entry lying
within `DANGER_CHECK_RADIUS` of the hazardous entry "Downtown Crossing",
yet manually selecting it yields no alert (the claim's radius disjunct
would demand HAZARD); and manually selecting the hazardous entry "Downtown
Crossing" while a gunshot alert is active leaves the gunshot alert in
place (the claim demands HAZARD there too). -/
theorem C1_manual_selection_counterexample :
    safePark.isDangerous = false ∧
    downtownCrossing ∈ PREDEFINED_LOCATIONS ∧
    downtownCrossing.isDangerous = true ∧
    getDistance safePark.toLocation downtownCrossing.toLocation ≤ DANGER_CHECK_RADIUS ∧
    (manuallySetLocation safePark initialState).alertState.type = none ∧
    (manuallySetLocation downtownCrossing
        (simulateGunshot true (manuallySetLocation safePark initialState))).alertState.type =
      some AlertType.gunshot := by
  refine ⟨rfl, ?_, rfl, safePark_within_radius, rfl, rfl⟩
  exact List.mem_cons_of_mem _ (List.mem_cons_self _ _)

/-- C1 (amended): provided the alert showing before the manual selection is
not a gunshot (EVENT) alert, manually selecting a catalog entry
immediately yields a crime (HAZARD) alert exactly when the entry's own
`isDangerous` flag is set — the proximity radius is not consulted for
named entries — and no alert otherwise; the selection also clears the
suppression flag and cancels any pending display timer.  (If a gunshot
alert is active, the selection leaves it in place.) -/
theorem C1_manual_selection_amended (s : HookState) (d : DefinedLocation)
    (h : s.alertState.type ≠ some AlertType.gunshot) :
    (manuallySetLocation d s).alertState.type =
      (if d.isDangerous then some AlertType.crime else none) ∧
    (manuallySetLocation d s).isGunshotAlertActive = false ∧
    (manuallySetLocation d s).sideNotificationTimer = none := by
  rcases ht : s.alertState.type with _ | t
  · cases hd : d.isDangerous <;>
      simp [manuallySetLocation, locationChangeEffect, updateAlertForLocation,
        updateAlertClosure, clearSideNotification, dangerCheckFor, locationNameOf, ht, hd]
  · cases t
    · cases hd : d.isDangerous <;>
        simp [manuallySetLocation, locationChangeEffect, updateAlertForLocation,
          updateAlertClosure, clearSideNotification, dangerCheckFor, locationNameOf, ht, hd]
    · exact absurd ht h

theorem C1_manual_selection_amended_witness :
    (manuallySetLocation downtownCrossing initialState).alertState.type =
        some AlertType.crime ∧
    (manuallySetLocation safePark initialState).alertState.type = none := by
  have h1 := (C1_manual_selection_amended initialState downtownCrossing (by decide)).1
  have h2 := (C1_manual_selection_amended initialState safePark (by decide)).1
  refine ⟨?_, ?_⟩
  · simpa using h1
  · simpa using h2

/-! ## Local trigger without a location (C10) -/

/-- C10: invoking `simulateGunshot` with no resolved location only sets the
fixed error string; the alert state, location, suppression flag,
side-notification visibility and the event store are all unchanged, and no
write is attempted. -/
theorem C10_trigger_without_location (s : HookState) (writeOk : Bool)
    (h : s.currentLocation = none) :
    simulateGunshot writeOk s =
        { s with error := some "Cannot simulate gunshot without a location selected." } ∧
    (simulateGunshot writeOk s).alertState = s.alertState ∧
    (simulateGunshot writeOk s).currentLocation = s.currentLocation ∧
    (simulateGunshot writeOk s).isGunshotAlertActive = s.isGunshotAlertActive ∧
    (simulateGunshot writeOk s).showSideNotification = s.showSideNotification ∧
    (simulateGunshot writeOk s).store = s.store := by
  have key : simulateGunshot writeOk s =
      { s with error := some "Cannot simulate gunshot without a location selected." } := by
    unfold simulateGunshot simulateGunshotStart
    rw [h]
  exact ⟨key, by rw [key], by rw [key], by rw [key], by rw [key], by rw [key]⟩

theorem C10_trigger_without_location_witness :
    initialState.currentLocation = none ∧
    simulateGunshot true initialState =
      { initialState with
          error := some "Cannot simulate gunshot without a location selected." } :=
  ⟨rfl, (C10_trigger_without_location initialState true rfl).1⟩

/-! ## Local trigger with a location, optimistic alert and write failure (C4) -/

/-- C4: with a resolved location, the local trigger raises the EVENT
(gunshot) alert already in its synchronous part, before the store write
settles and independently of its outcome; a failed write surfaces the fixed
error string, leaves the shown gunshot alert in place, and resets the
suppression flag and cancels its timer. -/
theorem C4_write_failure_no_rollback (s : HookState) (loc : CurrentLoc)
    (h : s.currentLocation = some loc) :
    (simulateGunshotStart s).alertState.type = some AlertType.gunshot ∧
    (simulateGunshotStart s).store = s.store ∧
    (simulateGunshot true s).alertState.type = some AlertType.gunshot ∧
    (simulateGunshot false s).error = some "Failed to simulate gunshot event." ∧
    (simulateGunshot false s).alertState.type = some AlertType.gunshot ∧
    (simulateGunshot false s).isGunshotAlertActive = false ∧
    (simulateGunshot false s).sideNotificationTimer = none := by
  unfold simulateGunshot simulateGunshotStart gunshotWriteComplete clearSideNotification
  rw [h]
  exact ⟨rfl, rfl, rfl, rfl, rfl, rfl, rfl⟩

theorem C4_write_failure_no_rollback_witness :
    (simulateGunshot false (manuallySetLocation safePark initialState)).alertState.type =
        some AlertType.gunshot ∧
    (simulateGunshot false (manuallySetLocation safePark initialState)).isGunshotAlertActive =
      false :=
  ⟨(C4_write_failure_no_rollback (manuallySetLocation safePark initialState)
      (CurrentLoc.defined safePark) rfl).2.2.2.2.1,
   (C4_write_failure_no_rollback (manuallySetLocation safePark initialState)
      (CurrentLoc.defined safePark) rfl).2.2.2.2.2.1⟩

/-! ## Display timer expiry (C2) -/

theorem clearGunshotAndRevert_alertState (s : HookState)
    (h : s.alertState.type = some AlertType.gunshot) :
    (clearGunshotAndRevert s).alertState = s.alertState := by
  unfold clearGunshotAndRevert
  rw [h, updateAlertClosure_gunshot_fixed]
  rfl

theorem clearGunshotAndRevert_fields (s : HookState) :
    (clearGunshotAndRevert s).currentLocation = s.currentLocation ∧
    (clearGunshotAndRevert s).isGunshotAlertActive = false ∧
    (clearGunshotAndRevert s).locationSource = s.locationSource ∧
    (clearGunshotAndRevert s).gpsFetchLive = s.gpsFetchLive := by
  unfold clearGunshotAndRevert
  exact ⟨((updateAlertClosure_fields _ _ _).1).trans rfl,
    ((updateAlertClosure_fields _ _ _).2.2.1).trans rfl,
    ((updateAlertClosure_fields _ _ _).2.1).trans rfl,
    ((updateAlertClosure_fields _ _ _).2.2.2.1).trans rfl⟩

/-! ## Feed classification (C3) -/

/-- C3 counterexample: an event carrying an epoch-zero server timestamp,
delivered at `Date.now() = 30000` with no location resolved, is recent per
the claim (its timestamp is set and its age, 30,000 ms, is below the
60,000 ms window) and nearby (fail open), yet the code classifies it
inactive: the JavaScript truthiness guard `eventTimestamp && ...` treats
the number 0 like an unset timestamp. -/
theorem C3_feed_classification_counterexample :
    ((30000:ℤ) - 0 < 60000) ∧
    isNearbyB none (Location.mk 0 0) = true ∧
    classifyEvent 30000 none ⟨Location.mk 0 0, some 0⟩ = false :=
  ⟨by norm_num, rfl, rfl⟩

/-- C3 (amended): a feed delivery is classified active if and only if the
event's server timestamp is set and non-zero (a pending/unset timestamp,
or the epoch-zero timestamp, which is equally falsy in JavaScript, counts
as not recent) with age strictly below 60,000 ms, and the event is nearby
(strictly within 1,000 m of the current location, or unconditionally when
no current location is resolved — fail open).  A pending timestamp never
alerts: delivering such an event leaves the alert state unchanged. -/
theorem C3_feed_classification_amended (now : ℤ) (curLoc : Option CurrentLoc)
    (ev : GunshotEvent) :
    (classifyEvent now curLoc ev = true ↔
      ((∃ t, ev.timestamp = some t ∧ t ≠ 0 ∧ now - t < 60000) ∧
        (∀ l, curLoc = some l → getDistance l.toLocation ev.location < 1000))) ∧
    (∀ s : HookState, ev.timestamp = none →
      (handleSnapshot now (some ev) s).alertState = s.alertState) := by
  constructor
  · unfold classifyEvent
    rw [Bool.and_eq_true]
    have hrec : isRecentB now ev.timestamp = true ↔
        (∃ t, ev.timestamp = some t ∧ t ≠ 0 ∧ now - t < 60000) := by
      rcases hts : ev.timestamp with _ | t
      · simp [isRecentB]
      · unfold isRecentB
        by_cases h0 : t = 0
        · simp [h0]
        · simp [h0]
    have hnear : isNearbyB curLoc ev.location = true ↔
        (∀ l, curLoc = some l → getDistance l.toLocation ev.location < 1000) := by
      rcases hc : curLoc with _ | l
      · simp [isNearbyB]
      · simp [isNearbyB]
    exact and_congr hrec hnear
  · intro s hts
    unfold handleSnapshot
    dsimp only
    rw [hts]
    simp only [isRecentB]
    rw [if_neg (by simp)]
    by_cases hg : s.alertState.type = some AlertType.gunshot ∧ s.isGunshotAlertActive = false
    · rw [if_pos hg]
      exact clearGunshotAndRevert_alertState s hg.1
    · rw [if_neg hg]

theorem C3_feed_classification_amended_witness :
    classifyEvent 1000000 none ⟨Location.mk 0 0, some 999000⟩ = true ∧
    (handleSnapshot 1000000 (some ⟨Location.mk 0 0, none⟩) initialState).alertState =
      initialState.alertState := by
  refine ⟨?_, ?_⟩
  · exact (C3_feed_classification_amended 1000000 none ⟨Location.mk 0 0, some 999000⟩).1.mpr
      ⟨⟨999000, rfl, by norm_num, by norm_num⟩, by intro l hl; cases hl⟩
  · exact (C3_feed_classification_amended 1000000 none ⟨Location.mk 0 0, none⟩).2
      initialState rfl

/-! ## Proximity Classifier (C5) -/

theorem checkProximityList_isNear_iff (loc : Location) (L : List DefinedLocation) :
    (checkProximityList loc L).isNear = true ↔
      ∃ d ∈ L, getDistance loc d.toLocation ≤ DANGER_CHECK_RADIUS := by
  induction L with
  | nil => simp [checkProximityList]
  | cons a L ih =>
    unfold checkProximityList
    by_cases h : getDistance loc a.toLocation ≤ DANGER_CHECK_RADIUS
    · simp [h]
    · simp [h, ih]

theorem checkProximityList_name_eq (loc : Location) (L : List DefinedLocation) :
    (checkProximityList loc L).name =
      (L.find? fun d => decide (getDistance loc d.toLocation ≤ DANGER_CHECK_RADIUS)).map
        DefinedLocation.name := by
  induction L with
  | nil => simp [checkProximityList]
  | cons a L ih =>
    unfold checkProximityList
    by_cases h : getDistance loc a.toLocation ≤ DANGER_CHECK_RADIUS
    · simp [h]
    · simp [h, ih]

/-- C5: the Proximity Classifier flags a plain coordinate exactly when some
hazardous catalog site lies within `DANGER_CHECK_RADIUS` (500 m,
inclusive), reporting the name of the first such site in catalog order (no
distance ranking); and a manually selected named catalog entry is
classified hazardous if and only if its own `isDangerous` flag is set (so
a named non-hazardous entry is never promoted by mere proximity). -/
theorem C5_proximity_classifier (loc : Location) (d : DefinedLocation) :
    ((checkProximityToDanger loc).isNear = true ↔
      ∃ site ∈ PREDEFINED_LOCATIONS, site.isDangerous = true ∧
        getDistance loc site.toLocation ≤ DANGER_CHECK_RADIUS) ∧
    ((checkProximityToDanger loc).name =
      ((PREDEFINED_LOCATIONS.filter fun l => l.isDangerous).find? fun site =>
          decide (getDistance loc site.toLocation ≤ DANGER_CHECK_RADIUS)).map
        DefinedLocation.name) ∧
    ((dangerCheckFor (CurrentLoc.defined d)).isNear = d.isDangerous) := by
  refine ⟨?_, checkProximityList_name_eq loc _, rfl⟩
  unfold checkProximityToDanger
  rw [checkProximityList_isNear_iff]
  constructor
  · rintro ⟨site, hmem, hdist⟩
    rw [List.mem_filter] at hmem
    exact ⟨site, hmem.1, hmem.2, hdist⟩
  · rintro ⟨site, hmem, hdang, hdist⟩
    exact ⟨site, List.mem_filter.mpr ⟨hmem, hdang⟩, hdist⟩

/-! ## Feed idempotence (C7) -/

theorem handleSnapshot_none_eq (now : ℤ) (s : HookState) :
    handleSnapshot now none s =
      (if s.alertState.type = some AlertType.gunshot ∧ s.isGunshotAlertActive = false
        then clearGunshotAndRevert s else s) := rfl

theorem handleSnapshot_stale_eq (now : ℤ) (ev : GunshotEvent) (s : HookState)
    (hr : isRecentB now ev.timestamp = false) :
    handleSnapshot now (some ev) s =
      (if s.alertState.type = some AlertType.gunshot ∧ s.isGunshotAlertActive = false
        then clearGunshotAndRevert s else s) := by
  unfold handleSnapshot
  dsimp only
  rw [hr]
  rw [if_neg (by simp)]

theorem handleSnapshot_recent_eq (now : ℤ) (ev : GunshotEvent) (s : HookState)
    (hr : isRecentB now ev.timestamp = true) :
    handleSnapshot now (some ev) s =
      (if isNearbyB s.currentLocation ev.location = true ∧
          s.alertState.type ≠ some AlertType.gunshot ∧ s.isGunshotAlertActive = false then
        { s with isGunshotAlertActive := true,
                 alertState := ⟨some AlertType.gunshot, gunshotMessage⟩,
                 showSideNotification := true,
                 sideNotificationTimer := some ⟨s.currentLocation, s.alertState.type⟩ }
      else if isNearbyB s.currentLocation ev.location = false ∧
          s.alertState.type = some AlertType.gunshot ∧ s.isGunshotAlertActive = false then
        clearGunshotAndRevert s
      else s) := by
  unfold handleSnapshot
  dsimp only
  rw [hr, if_pos rfl]

theorem clearStep_alert_idem (s : HookState) :
    (let t := if s.alertState.type = some AlertType.gunshot ∧ s.isGunshotAlertActive = false
        then clearGunshotAndRevert s else s
     (if t.alertState.type = some AlertType.gunshot ∧ t.isGunshotAlertActive = false
        then clearGunshotAndRevert t else t).alertState = t.alertState) := by
  dsimp only
  by_cases hg : s.alertState.type = some AlertType.gunshot ∧ s.isGunshotAlertActive = false
  · rw [if_pos hg]
    have hA := clearGunshotAndRevert_alertState s hg.1
    have hty : (clearGunshotAndRevert s).alertState.type = some AlertType.gunshot := by
      rw [hA]; exact hg.1
    rw [if_pos ⟨hty, (clearGunshotAndRevert_fields s).2.1⟩]
    exact clearGunshotAndRevert_alertState _ hty
  · rw [if_neg hg, if_neg hg]

/-- C7: delivering the same feed snapshot a second time (same latest event,
same delivery instant) never changes the alert state: the feed handler is
idempotent on `alertState`, for every hook state. -/
theorem C7_feed_idempotent (s : HookState) (now : ℤ) (snap : Option GunshotEvent) :
    (handleSnapshot now snap (handleSnapshot now snap s)).alertState =
      (handleSnapshot now snap s).alertState := by
  rcases snap with _ | ev
  · rw [handleSnapshot_none_eq, handleSnapshot_none_eq]
    exact clearStep_alert_idem s
  · by_cases hr : isRecentB now ev.timestamp = true
    · cases hnb : isNearbyB s.currentLocation ev.location
      · -- not nearby
        by_cases hB : s.alertState.type = some AlertType.gunshot ∧
            s.isGunshotAlertActive = false
        · have hinner : handleSnapshot now (some ev) s = clearGunshotAndRevert s := by
            rw [handleSnapshot_recent_eq now ev s hr]
            rw [if_neg (by simp [hnb]), if_pos ⟨hnb, hB.1, hB.2⟩]
          rw [hinner]
          have hA := clearGunshotAndRevert_alertState s hB.1
          have hty : (clearGunshotAndRevert s).alertState.type = some AlertType.gunshot := by
            rw [hA]; exact hB.1
          have hloc := (clearGunshotAndRevert_fields s).1
          have hflag := (clearGunshotAndRevert_fields s).2.1
          rw [handleSnapshot_recent_eq now ev _ hr]
          rw [if_neg (by simp [hloc, hnb]), if_pos ⟨by rw [hloc]; exact hnb, hty, hflag⟩]
          exact clearGunshotAndRevert_alertState _ hty
        · have hid : handleSnapshot now (some ev) s = s := by
            rw [handleSnapshot_recent_eq now ev s hr]
            rw [if_neg (by simp [hnb]), if_neg (fun hc => hB ⟨hc.2.1, hc.2.2⟩)]
          rw [hid, hid]
      · -- nearby
        by_cases hA : s.alertState.type ≠ some AlertType.gunshot ∧
            s.isGunshotAlertActive = false
        · have hinner : handleSnapshot now (some ev) s =
              { s with isGunshotAlertActive := true,
                       alertState := ⟨some AlertType.gunshot, gunshotMessage⟩,
                       showSideNotification := true,
                       sideNotificationTimer := some ⟨s.currentLocation, s.alertState.type⟩ } := by
            rw [handleSnapshot_recent_eq now ev s hr]
            rw [if_pos ⟨hnb, hA.1, hA.2⟩]
          rw [hinner]
          rw [handleSnapshot_recent_eq now ev _ hr]
          rw [if_neg (by simp), if_neg (by simp)]
        · have hid : handleSnapshot now (some ev) s = s := by
            rw [handleSnapshot_recent_eq now ev s hr]
            rw [if_neg (fun hc => hA ⟨hc.2.1, hc.2.2⟩), if_neg (by simp [hnb])]
          rw [hid, hid]
    · rw [handleSnapshot_stale_eq now ev s (by simpa using hr),
        handleSnapshot_stale_eq now ev _ (by simpa using hr)]
      exact clearStep_alert_idem s

/-! ## Location Resolver: manual override of an in-flight device fetch (C8) -/

theorem simulateGunshot_fields (writeOk : Bool) (s : HookState) :
    (simulateGunshot writeOk s).locationSource = s.locationSource ∧
    (simulateGunshot writeOk s).gpsFetchLive = s.gpsFetchLive := by
  unfold simulateGunshot simulateGunshotStart gunshotWriteComplete clearSideNotification
  cases hc : s.currentLocation <;> split_ifs <;> simp

theorem fireTimer_fields (s : HookState) :
    (fireTimer s).locationSource = s.locationSource ∧
    (fireTimer s).gpsFetchLive = s.gpsFetchLive := by
  unfold fireTimer
  cases ht : s.sideNotificationTimer
  · exact ⟨rfl, rfl⟩
  · exact ⟨((updateAlertClosure_fields _ _ _).2.1).trans rfl,
      ((updateAlertClosure_fields _ _ _).2.2.2.1).trans rfl⟩

theorem handleSnapshot_fields (now : ℤ) (snap : Option GunshotEvent) (s : HookState) :
    (handleSnapshot now snap s).locationSource = s.locationSource ∧
    (handleSnapshot now snap s).gpsFetchLive = s.gpsFetchLive := by
  rcases snap with _ | ev
  · rw [handleSnapshot_none_eq]
    split_ifs with h
    · exact ⟨(clearGunshotAndRevert_fields s).2.2.1, (clearGunshotAndRevert_fields s).2.2.2⟩
    · exact ⟨rfl, rfl⟩
  · by_cases hr : isRecentB now ev.timestamp = true
    · rw [handleSnapshot_recent_eq now ev s hr]
      split_ifs with h1 h2
      · exact ⟨rfl, rfl⟩
      · exact ⟨(clearGunshotAndRevert_fields s).2.2.1, (clearGunshotAndRevert_fields s).2.2.2⟩
      · exact ⟨rfl, rfl⟩
    · rw [handleSnapshot_stale_eq now ev s (by simpa using hr)]
      split_ifs with h
      · exact ⟨(clearGunshotAndRevert_fields s).2.2.1, (clearGunshotAndRevert_fields s).2.2.2⟩
      · exact ⟨rfl, rfl⟩

theorem manuallySetLocation_fields (d : DefinedLocation) (s : HookState) :
    (manuallySetLocation d s).currentLocation = some (CurrentLoc.defined d) ∧
    (manuallySetLocation d s).locationSource = some LocationSource.manual ∧
    (manuallySetLocation d s).gpsFetchLive =
      (if s.locationSource = some LocationSource.manual then s.gpsFetchLive else false) := by
  unfold manuallySetLocation locationChangeEffect updateAlertForLocation clearSideNotification
  dsimp only
  rw [if_neg (by simp)]
  exact ⟨((updateAlertClosure_fields _ _ _).1).trans rfl,
    ((updateAlertClosure_fields _ _ _).2.1).trans rfl,
    ((updateAlertClosure_fields _ _ _).2.2.2.1).trans rfl⟩

theorem step_preserves_manualLock (a : Action) (s : HookState)
    (h : s.locationSource = some LocationSource.manual ∧ s.gpsFetchLive = false) :
    (step a s).locationSource = some LocationSource.manual ∧
    (step a s).gpsFetchLive = false := by
  cases a with
  | manualSelect d =>
    simp only [step]
    have hf := manuallySetLocation_fields d s
    refine ⟨hf.2.1, ?_⟩
    rw [hf.2.2, if_pos h.1]
    exact h.2
  | gpsFixArrives loc =>
    simp only [step]
    unfold gpsSuccess
    rw [if_neg (by simp [h.2])]
    exact h
  | gpsFetchFails msg =>
    simp only [step]
    unfold gpsFailure
    rw [if_neg (by simp [h.2])]
    exact h
  | localTrigger writeOk =>
    simp only [step]
    have hf := simulateGunshot_fields writeOk s
    exact ⟨hf.1.trans h.1, hf.2.trans h.2⟩
  | feedDelivery now snap =>
    simp only [step]
    have hf := handleSnapshot_fields now snap s
    exact ⟨hf.1.trans h.1, hf.2.trans h.2⟩
  | timerFire =>
    simp only [step]
    have hf := fireTimer_fields s
    exact ⟨hf.1.trans h.1, hf.2.trans h.2⟩

theorem steps_preserves_manualLock (as : List Action) (s : HookState)
    (h : s.locationSource = some LocationSource.manual ∧ s.gpsFetchLive = false) :
    (steps as s).locationSource = some LocationSource.manual ∧
    (steps as s).gpsFetchLive = false := by
  induction as generalizing s with
  | nil => exact h
  | cons a as ih => exact ih _ (step_preserves_manualLock a s h)

/-- C8: a manual selection makes the resolved location the manual one with
manual provenance, and — after any further sequence of triggers — a
late-arriving device fix is discarded outright (the GPS completion step is
the identity), so it never replaces the manually selected location. -/
theorem C8_manual_overrides_device_fix (s : HookState) (d : DefinedLocation)
    (h : s.locationSource ≠ some LocationSource.manual) (as : List Action) (loc : Location) :
    (manuallySetLocation d s).currentLocation = some (CurrentLoc.defined d) ∧
    (manuallySetLocation d s).locationSource = some LocationSource.manual ∧
    step (Action.gpsFixArrives loc) (steps as (manuallySetLocation d s)) =
      steps as (manuallySetLocation d s) := by
  have hf := manuallySetLocation_fields d s
  have h0 : (manuallySetLocation d s).locationSource = some LocationSource.manual ∧
      (manuallySetLocation d s).gpsFetchLive = false := by
    refine ⟨hf.2.1, ?_⟩
    rw [hf.2.2, if_neg h]
  have hs := steps_preserves_manualLock as _ h0
  refine ⟨hf.1, hf.2.1, ?_⟩
  simp only [step]
  unfold gpsSuccess
  rw [if_neg (by simp [hs.2])]

theorem C8_manual_overrides_device_fix_witness :
    (manuallySetLocation safePark initialState).currentLocation =
        some (CurrentLoc.defined safePark) ∧
    step (Action.gpsFixArrives (Location.mk 0 0))
        (steps [] (manuallySetLocation safePark initialState)) =
      steps [] (manuallySetLocation safePark initialState) := by
  have h := C8_manual_overrides_device_fix initialState safePark (by decide) []
    (Location.mk 0 0)
  exact ⟨h.1, h.2.2⟩

/-! ## GPS fetch failure (C6) -/

/-- C6: when the in-flight device location fetch fails while no manual
selection exists, a non-empty user-visible error string is set and loading
stops; a crime (HAZARD) alert is cleared, while a gunshot (EVENT) alert is
left untouched. -/
theorem C6_gps_failure_policy (s : HookState) (msg : String)
    (h1 : s.gpsFetchLive = true) (_h2 : s.locationSource ≠ some LocationSource.manual) :
    (gpsFailure msg s).error =
        some (if msg = "" then "Could not retrieve location via GPS." else msg) ∧
    (if msg = "" then "Could not retrieve location via GPS." else msg) ≠ "" ∧
    (gpsFailure msg s).isLoadingLocation = false ∧
    (gpsFailure msg s).alertState.type =
      (if s.alertState.type = some AlertType.crime then none else s.alertState.type) := by
  unfold gpsFailure clearSideNotification
  rw [h1]
  by_cases hm : msg = "" <;> by_cases hc : s.alertState.type = some AlertType.crime <;>
    simp_all

theorem C6_gps_failure_policy_witness :
    (gpsFailure permissionDeniedMessage
        { initialState with alertState := ⟨some AlertType.crime, "m"⟩ }).error =
      some permissionDeniedMessage ∧
    (gpsFailure permissionDeniedMessage
        { initialState with alertState := ⟨some AlertType.crime, "m"⟩ }).alertState.type =
      none := by
  have h := C6_gps_failure_policy
    { initialState with alertState := ⟨some AlertType.crime, "m"⟩ }
    permissionDeniedMessage rfl (by decide)
  refine ⟨?_, ?_⟩
  · have h1 := h.1
    simpa [permissionDeniedMessage] using h1
  · have h4 := h.2.2.2
    simpa using h4

end Safebase
